import Mathlib

/-!
Shallow embedding of the telecom billing agent pipeline:
`app/utils/guardrails.py`, `app/agents/billing.py`, `app/agents/manager.py`,
`app/agents/sales.py`, `app/rag/retriever.py`, `app/memory/session_store.py`,
`app/memory/entity_extractor.py` and `app/graph.py`.

Conventions used throughout:
* Python dynamic values (parsed JSON, response dicts) are modelled by the
  `Telecom.Json` inductive; operations that can raise a Python exception
  (`in` on a non-container, `.get` on a non-dict, `len` of a number) return
  `Except String`.
* Similarity scores and thresholds are Python floats used only in
  comparisons; they are modelled as rationals.
* External services (the completion endpoint, `json.loads`, the vector
  index) are oracles carried in environment records and quantified over in
  the theorems.
-/

namespace Telecom

/-- Python substring test `sub in s` on strings (UTF-8 code points). -/
def containsSub (s sub : String) : Bool := decide (sub.data <:+: s.data)

/-- Python `str.strip()` (no argument): drop whitespace from both ends. -/
def pyStrip (s : String) : String :=
  String.mk (((s.data.dropWhile Char.isWhitespace).reverse.dropWhile Char.isWhitespace).reverse)

/-- Python `str.lower()` (ASCII letters, which is all the embedded string
constants contain). -/
def pyLower (s : String) : String := String.mk (s.data.map Char.toLower)

/-- `s.startswith(p)`. -/
def startsWithLit (s p : String) : Bool := p.data.isPrefixOf s.data

/-- `s.endswith(p)`. -/
def endsWithLit (s p : String) : Bool := p.data.reverse.isPrefixOf s.data.reverse

/-- Dynamic JSON-like values as produced by `json.loads` and passed around
as Python dicts/lists inside the agents. -/
inductive Json where
  | null
  | bool (b : Bool)
  | num (q : ℚ)
  | str (s : String)
  | arr (elems : List Json)
  | obj (fields : List (String × Json))

/-- Lookup of a key in a dict value (pure variant, `none` when the key is
absent or the value is not a dict). -/
def jGet (v : Json) (key : String) : Option Json :=
  match v with
  | .obj kvs => (kvs.find? fun kv => kv.1 == key).map Prod.snd
  | _ => none

/-- `d.get(key, default)` on a value already known to be a dict. -/
def jGetD (v : Json) (key : String) (dflt : Json) : Json := (jGet v key).getD dflt

/-- `d.get(key, default)` where a string is expected by the caller. -/
def jGetStr (v : Json) (key : String) (dflt : String) : String :=
  match jGet v key with
  | some (.str s) => s
  | _ => dflt

/-- Python dict assignment `d[key] = val` (replaces in place, else appends;
only reachable on dict values in the embedded code paths). -/
def jsonSetKey (v : Json) (key : String) (val : Json) : Json :=
  match v with
  | .obj kvs =>
      if kvs.any fun kv => kv.1 == key then
        .obj (kvs.map fun kv => if kv.1 == key then (kv.1, val) else kv)
      else .obj (kvs ++ [(key, val)])
  | other => other

/-- Python truthiness of a dynamic value (`if not citations`, dicts and
lists are truthy iff non-empty, numbers iff non-zero). -/
def jsonTruthy : Json → Bool
  | .null => false
  | .bool b => b
  | .num q => q != 0
  | .str s => s != ""
  | .arr xs => !xs.isEmpty
  | .obj kvs => !kvs.isEmpty

/-- Python `key in value` (`__contains__`): key test on dicts, membership on
lists (a string key equals only an equal string element), substring test on
strings; raises `TypeError` on non-container values, as CPython does. -/
def pyIn (key : String) : Json → Except String Bool
  | .obj kvs => .ok (kvs.any fun kv => kv.1 == key)
  | .arr xs => .ok (xs.any fun j => match j with | .str s => s == key | _ => false)
  | .str s => .ok (containsSub s key)
  | _ => .error "TypeError: argument of type is not iterable"

/-- Python `value.get(key, default)`: only dicts have `.get`; on any other
value an `AttributeError` is raised. -/
def pyDictGet (v : Json) (key : String) (dflt : Json) : Except String Json :=
  match v with
  | .obj kvs => .ok (((kvs.find? fun kv => kv.1 == key).map Prod.snd).getD dflt)
  | _ => .error "AttributeError: object has no attribute get"

/-- Python `len(value)` for the container types; `TypeError` otherwise. -/
def pyLen : Json → Except String Nat
  | .arr xs => .ok xs.length
  | .obj kvs => .ok kvs.length
  | .str s => .ok s.length
  | _ => .error "TypeError: object has no len"

/-- `type(value).__name__` (ints and floats are collapsed into `float`,
which is immaterial to every claim). -/
def pyTypeName : Json → String
  | .null => "NoneType"
  | .bool _ => "bool"
  | .num _ => "float"
  | .str _ => "str"
  | .arr _ => "list"
  | .obj _ => "dict"

/-- `[f for f in fields if f not in v]`, propagating the `TypeError` that
`in` raises on non-container `v`. -/
def missingOf (fields : List String) (v : Json) : Except String (List String) :=
  match fields with
  | [] => .ok []
  | f :: fs => do
      let b ← pyIn f v
      let rest ← missingOf fs v
      pure (if b then rest else f :: rest)

/-- `guardrails.ValidationResult` dataclass; `details` defaults to Python
`None`. -/
structure ValidationResult where
  is_valid : Bool
  reason : String
  details : Json := Json.null

/-- The optional `(?:\.\d{2})?` tail of the dollar pattern: a dot followed
by exactly two digits. -/
def dollarTryCents : List Char → Option (Char × Char)
  | '.' :: d1 :: d2 :: _ => if d1.isDigit && d2.isDigit then some (d1, d2) else none
  | _ => none

/-- Non-overlapping left-to-right matches of the guardrails dollar pattern
`\$[\d,]+(?:\.\d{2})?` (`GuardrailsChecker.DOLLAR_PATTERN`, re.findall
semantics: a greedy digit/comma run after `$`, then an optional dot with
exactly two digits). The recursion continues scanning from the character
after the `$`; this yields the same match list as re.findall's
non-overlapping scan because a matched span never contains another `$`. -/
def dollarFindAll : List Char → List String
  | [] => []
  | c :: rest =>
      if c = '$' then
        let body := rest.takeWhile fun d => d.isDigit || d == ','
        let rest1 := rest.dropWhile fun d => d.isDigit || d == ','
        if body.isEmpty then dollarFindAll rest
        else
          match dollarTryCents rest1 with
          | some (d1, d2) => String.mk ('$' :: body ++ ['.', d1, d2]) :: dollarFindAll rest
          | none => String.mk ('$' :: body) :: dollarFindAll rest
      else dollarFindAll rest

/-- `GuardrailsChecker.extract_dollar_amounts` / `DOLLAR_PATTERN.findall`. -/
def extractDollarAmounts (text : String) : List String := dollarFindAll text.data

/-- `re.findall` applied to a dynamic value: CPython raises a `TypeError`
unless the value is a string. -/
def findallJ : Json → Except String (List String)
  | .str s => .ok (dollarFindAll s.data)
  | _ => .error "TypeError: expected string or bytes-like object"

/-- `GuardrailsChecker.check_sales_agent_response` (guardrails.py:54-80). -/
def checkSalesAgentResponse (response : String) (queryIntent : String) : ValidationResult :=
  let dollarAmounts := extractDollarAmounts response
  if queryIntent = "billing_account_specific" ∧ dollarAmounts ≠ [] then
    { is_valid := false
      reason := "SalesAgent cannot provide specific billing amounts. Routing to BillingAgent."
      details := Json.obj [("blocked_amounts", Json.arr (dollarAmounts.map Json.str))] }
  else { is_valid := true, reason := "Response is appropriate for SalesAgent." }

def requiredResponseFields : List String := ["answer", "citations", "top_score"]

def requiredCitationFields : List String := ["doc_id", "chunk_id", "quote"]

/-- The `for i, citation in enumerate(citations)` loop of
`validate_billing_response_structure`, returning the first failure. -/
def checkCitationLoop (i : Nat) : List Json → Except String (Option ValidationResult)
  | [] => .ok none
  | c :: cs => do
      let missingCite ← missingOf requiredCitationFields c
      if missingCite ≠ [] then
        pure (some
          { is_valid := false
            reason := "Citation " ++ toString i ++ " missing fields: "
              ++ String.intercalate ", " missingCite
            details := Json.obj [("citation_index", Json.num i),
                                 ("missing", Json.arr (missingCite.map Json.str))] })
      else checkCitationLoop (i + 1) cs

/-- `GuardrailsChecker.validate_billing_response_structure`
(guardrails.py:86-131). -/
def validateBillingResponseStructure (responseData : Json) : Except String ValidationResult := do
  let missing ← missingOf requiredResponseFields responseData
  if missing ≠ [] then
    return { is_valid := false
             reason := "Missing required fields: " ++ String.intercalate ", " missing
             details := Json.obj [("missing_fields", Json.arr (missing.map Json.str))] }
  let citations ← pyDictGet responseData "citations" (Json.arr [])
  match citations with
  | .arr cs => do
      match (← checkCitationLoop 0 cs) with
      | some bad => pure bad
      | none => pure { is_valid := true, reason := "Response structure is valid." }
  | other =>
      pure { is_valid := false
             reason := "Citations must be a list"
             details := Json.obj [("citations_type", Json.str (pyTypeName other))] }

/-- `config.CONFIDENCE_THRESHOLD` (demo default 0.40). -/
def CONFIDENCE_THRESHOLD : ℚ := 2 / 5

/-- `config.STRICT_AMOUNT_VERIFICATION` (off by default). -/
def STRICT_AMOUNT_VERIFICATION : Bool := false

/-- Decimal rendering of a rational with two places, standing in for
CPython's `:.2f` float formatting inside reason strings (rounding-mode
differences are immaterial: no claim inspects these strings). -/
def fmtRat2 (q : ℚ) : String :=
  let c : Int := (q * 100).floor
  let sign := if c < 0 then "-" else ""
  let a := c.natAbs
  sign ++ toString (a / 100) ++ "." ++ (if a % 100 < 10 then "0" else "") ++ toString (a % 100)

/-- The clarifying questions embedded in the confidence-failure details. -/
def confidenceClarifyingQuestions : List String :=
  ["Can you provide your account number?",
   "Which billing period are you asking about?",
   "Can you provide more details about your question?"]

/-- Python `list(set(xs))` where the claims need only the underlying set:
duplicates removed, first occurrences kept (CPython's set iteration order
is unspecified; no claim depends on it). -/
def pyDedup (xs : List String) : List String := xs.eraseDups

/-- The `dollar_in_quotes` accumulation of check 3: `citation.get("quote", "")`
(an `AttributeError` on non-dict citations) then `findall` on the quote
(a `TypeError` on a non-string quote). -/
def quoteAmounts : List Json → Except String (List String)
  | [] => .ok []
  | c :: cs => do
      let q ← pyDictGet c "quote" (Json.str "")
      let a ← findallJ q
      let rest ← quoteAmounts cs
      pure (a ++ rest)

/-- `GuardrailsChecker.manager_validate_response` (guardrails.py:137-221).
`strict` is the `STRICT_AMOUNT_VERIFICATION` flag, `threshold` the
checker's `confidence_threshold`; `answer` and `citations` are the dynamic
values the manager extracted from the billing response. -/
def managerValidateResponse (strict : Bool) (threshold : ℚ)
    (answer : Json) (citations : Json) (topScore : ℚ) :
    Except String ValidationResult := do
  if !jsonTruthy citations then
    return { is_valid := false
             reason := "No citations provided. Cannot verify answer without evidence."
             details := Json.obj [("check", Json.str "citations_present"),
                                  ("needed", Json.str "At least one citation required")] }
  if topScore < threshold then
    return { is_valid := false
             reason := "Confidence too low (" ++ fmtRat2 topScore ++ " < "
               ++ fmtRat2 threshold ++ "). Please provide more specific information."
             details := Json.obj [("check", Json.str "confidence_threshold"),
                                  ("score", Json.num topScore),
                                  ("threshold", Json.num threshold),
                                  ("clarifying_questions",
                                   Json.arr (confidenceClarifyingQuestions.map Json.str))] }
  if strict then
    let dollarInAnswer := pyDedup (← findallJ answer)
    if dollarInAnswer ≠ [] then
      let cites ← (match citations with
        | .arr xs => Except.ok xs
        | _ => Except.error "TypeError: object is not iterable")
      let dollarInQuotes := pyDedup (← quoteAmounts cites)
      let unverified := dollarInAnswer.filter fun a => !dollarInQuotes.contains a
      if unverified ≠ [] then
        return { is_valid := false
                 reason := "Dollar amounts " ++ String.intercalate ", " unverified
                   ++ " in answer not found in source documents."
                 details := Json.obj [("check", Json.str "amounts_verified"),
                                      ("unverified_amounts", Json.arr (unverified.map Json.str)),
                                      ("verified_amounts", Json.arr (dollarInQuotes.map Json.str))] }
  let dollarInAnswer := pyDedup (← findallJ answer)
  let citationsCount ← pyLen citations
  pure { is_valid := true
         reason := "Response approved. Citations present, confidence sufficient."
         details := Json.obj [("citations_count", Json.num citationsCount),
                              ("confidence_score", Json.num topScore),
                              ("amounts_in_answer", Json.arr (dollarInAnswer.map Json.str))] }

/-! ## Retrieval engine (`app/rag/retriever.py`) -/

/-- A Retrieved Chunk record as built by `TelecomRetriever.retrieve`
(the `chunk_id` metadata value is dynamically typed and kept as `Json`). -/
structure Chunk where
  doc_id : String
  chunk_id : Json
  text : String
  score : ℚ

/-- Worker for `pySplit`: `acc` is the reversed word in progress. -/
def pySplitGo (acc : List Char) : List Char → List String
  | [] => if acc.isEmpty then [] else [String.mk acc.reverse]
  | c :: cs =>
      if c.isWhitespace then
        if acc.isEmpty then pySplitGo [] cs
        else String.mk acc.reverse :: pySplitGo [] cs
      else pySplitGo (c :: acc) cs

/-- Python `str.split()` with no argument: split on whitespace runs, no
empty fields. -/
def pySplit (s : String) : List String := pySplitGo [] s.data

/-- The quote built for one chunk by `create_citations_from_chunks`:
the first 20 words, with `...` appended when the text is longer. -/
def quoteOfText (text : String) : String :=
  let words := pySplit text
  String.intercalate " " (words.take 20) ++ (if words.length > 20 then "..." else "")

/-- `TelecomRetriever.create_citations_from_chunks` (retriever.py:157-188);
the `answer` argument is accepted and ignored, as in the source. -/
def createCitationsFromChunks (chunks : List Chunk) (answer : String) : List Json :=
  chunks.map fun chunk =>
    Json.obj [("doc_id", Json.str chunk.doc_id),
              ("chunk_id", chunk.chunk_id),
              ("quote", Json.str (quoteOfText chunk.text))]

/-! ## Billing agent (`app/agents/billing.py`) -/

/-- The fence-stripping of `BillingAgent._parse_json_response`
(billing.py:202-213) before `json.loads` runs on the trimmed remainder. -/
def stripJsonFences (responseText : String) : String :=
  let text := pyStrip responseText
  let text :=
    if startsWithLit text "```json" then String.mk (text.data.drop 7)
    else if startsWithLit text "```" then String.mk (text.data.drop 3)
    else text
  let text :=
    if endsWithLit text "```" then String.mk (text.data.take (text.data.length - 3)) else text
  pyStrip text

/-- Oracles for the billing agent's external collaborators: the retriever
round trip, the single completion request's returned text, and `json.loads`
(an external parser, modelled as a partial function: `none` means a
`JSONDecodeError`). -/
structure BillingEnv where
  retrieve : String → List Chunk × ℚ
  completion : String
  loads : String → Option Json

/-- `BillingAgent._parse_json_response`: strip fences, trim, parse. -/
def parseJsonResponse (loads : String → Option Json) (responseText : String) : Option Json :=
  loads (stripJsonFences responseText)

/-- `BillingAgent._create_fallback_response` (billing.py:215-233). -/
def createFallbackResponse (responseText : String) (chunks : List Chunk) : Json :=
  let citations := createCitationsFromChunks chunks responseText
  Json.obj [("answer", Json.str responseText),
            ("citations", Json.arr (citations.take 3)),
            ("confidence_note", Json.str "Response was reformatted for validation.")]

/-- The fixed answer text of `BillingAgent._create_not_found_response`. -/
def notFoundAnswerText : String :=
  "I couldn't find specific information about your account in our records. This might be because:\n- The account number or details weren't found\n- The billing period mentioned isn't available\nPlease verify your account information."

/-- `BillingAgent._create_not_found_response` (billing.py:235-252); the
`query` argument is accepted and ignored, as in the source. -/
def createNotFoundResponse (query : String) : Json :=
  Json.obj [("answer", Json.str notFoundAnswerText),
            ("citations", Json.arr []),
            ("top_score", Json.num 0),
            ("confidence_note", Json.str "No relevant documents found."),
            ("clarifying_questions",
             Json.arr [Json.str "Can you confirm your account number?",
                       Json.str "Which billing period are you asking about?"])]

/-- The parse-and-repair tail of `BillingAgent._generate_response`
(billing.py:185-200): parse the completion text (falling back on a
`JSONDecodeError`), validate the structure, and fall back again when the
structure check rejects. Structure validation itself can raise (see
`pyIn`/`pyDictGet`), and such an exception propagates. -/
def generateResponseData (loads : String → Option Json) (responseText : String)
    (chunks : List Chunk) : Except String Json := do
  let responseData :=
    match parseJsonResponse loads responseText with
    | some j => j
    | none => createFallbackResponse responseText chunks
  let validation ← validateBillingResponseStructure responseData
  if validation.is_valid then pure responseData
  else pure (createFallbackResponse responseText chunks)

/-- `BillingAgent.process_query` (billing.py:95-139). The second component
counts the completion requests issued on the taken path. -/
def processQuery (env : BillingEnv) (query : String) (sessionContext : String) :
    Except String Json × Nat :=
  let searchQuery := if sessionContext ≠ "" then sessionContext ++ " " ++ query else query
  let retrieved := env.retrieve searchQuery
  let chunks := retrieved.1
  let topScore := retrieved.2
  if chunks.isEmpty then (Except.ok (createNotFoundResponse query), 0)
  else
    match generateResponseData env.loads env.completion chunks with
    | .ok responseData => (.ok (jsonSetKey responseData "top_score" (Json.num topScore)), 1)
    | .error e => (.error e, 1)

/-! ## Session memory (`app/memory/session_store.py`) -/

/-- A conversation turn; the wall-clock timestamp column is irrelevant to
every claim and omitted. -/
structure Turn where
  role : String
  content : String

/-- `SessionData.max_history` / the SQL `LIMIT 10` trim bound. -/
def maxHistory : Nat := 10

/-- `SessionData.add_turn` (session_store.py:92-101), equally the logical
effect of `SessionStore.add_conversation_turn`'s insert plus
delete-oldest-on-insert trim (session_store.py:379-435): append, then keep
only the most recent `maxHistory` turns. -/
def addTurn (history : List Turn) (t : Turn) : List Turn :=
  let h := history ++ [t]
  if h.length > maxHistory then h.drop (h.length - maxHistory) else h

/-- The entity columns of a stored session (`sessions` table /
`SessionData`); `last_doc_ids` is a serialized column untouched by the
claims and omitted. -/
structure SessionEntities where
  account_id : Option String := none
  customer_name : Option String := none
  billing_period : Option String := none
  current_topic : Option String := none
  last_query : Option String := none
  last_response : Option String := none

/-- `SessionStore.update`'s allow-list of updatable columns. -/
def allowedFields : List String :=
  ["account_id", "customer_name", "billing_period", "current_topic",
   "last_query", "last_response", "last_doc_ids"]

/-- One `column = value` assignment of the UPDATE statement built by
`SessionStore.update`. -/
def applyField (s : SessionEntities) (kv : String × String) : SessionEntities :=
  if kv.1 = "account_id" then { s with account_id := some kv.2 }
  else if kv.1 = "customer_name" then { s with customer_name := some kv.2 }
  else if kv.1 = "billing_period" then { s with billing_period := some kv.2 }
  else if kv.1 = "current_topic" then { s with current_topic := some kv.2 }
  else if kv.1 = "last_query" then { s with last_query := some kv.2 }
  else if kv.1 = "last_response" then { s with last_response := some kv.2 }
  else s

/-- `SessionStore.update` (session_store.py:325-377) on an existing
session: keep only allow-listed kwargs and set exactly those columns,
leaving every other column as stored. -/
def storeUpdate (s : SessionEntities) (kwargs : List (String × String)) : SessionEntities :=
  (kwargs.filter fun kv => allowedFields.contains kv.1).foldl applyField s

/-- Python truthiness of an optional string field (`if self.account_id:`):
both `None` and the empty string are falsy. -/
def optTruthy (o : Option String) : Bool := o.getD "" ≠ ""

/-- `SessionData.get_context_summary` (session_store.py:103-122). -/
def getContextSummary (s : SessionEntities) : String :=
  let parts : List String := []
  let parts := if optTruthy s.account_id then parts ++ ["Account: " ++ s.account_id.getD ""] else parts
  let parts := if optTruthy s.customer_name then parts ++ ["Customer: " ++ s.customer_name.getD ""] else parts
  let parts := if optTruthy s.billing_period then parts ++ ["Discussing: " ++ s.billing_period.getD ""] else parts
  let parts := if optTruthy s.current_topic then parts ++ ["Topic: " ++ s.current_topic.getD ""] else parts
  if parts ≠ [] then "Session Context: " ++ String.intercalate " | " parts else ""

/-! ## Entity extractor (`app/memory/entity_extractor.py`) -/

/-- The `ExtractedEntities` dataclass. -/
structure ExtractedEntities where
  account_id : Option String := none
  customer_name : Option String := none
  billing_period : Option String := none
  dollar_amounts : List String := []
  topic : Option String := none

/-- `EntityExtractor.extract_and_update_session` (entity_extractor.py:218-255)
applied to an existing session: build the kwargs dict from the truthy
extracted fields and run `SessionStore.update` when it is non-empty. -/
def extractAndUpdateSession (entities : ExtractedEntities) (s : SessionEntities) : SessionEntities :=
  let updates :=
    (if optTruthy entities.account_id then [("account_id", entities.account_id.getD "")] else [])
    ++ (if optTruthy entities.customer_name then [("customer_name", entities.customer_name.getD "")] else [])
    ++ (if optTruthy entities.billing_period then [("billing_period", entities.billing_period.getD "")] else [])
    ++ (if optTruthy entities.topic then [("current_topic", entities.topic.getD "")] else [])
  if updates ≠ [] then storeUpdate s updates else s

/-- `EntityExtractor.TOPIC_KEYWORDS` in source-definition order
(entity_extractor.py:111-117; Python dicts iterate in insertion order). -/
def TOPIC_KEYWORDS : List (String × List String) :=
  [("billing", ["bill", "invoice", "charge", "payment", "amount", "due", "balance"]),
   ("plans", ["plan", "upgrade", "downgrade", "package", "subscription"]),
   ("dispute", ["dispute", "wrong", "incorrect", "error", "overcharge", "refund"]),
   ("late_fee", ["late", "fee", "penalty", "overdue"]),
   ("support", ["help", "support", "issue", "problem", "question"])]

/-- `sum(1 for kw in keywords if kw in text_lower)`. -/
def topicScore (textLower : String) (keywords : List String) : Nat :=
  (keywords.filter fun kw => containsSub textLower kw).length

/-- The running-best loop of Python `max(iterable, key=...)`: only a
strictly greater score replaces the current best, so the first maximum in
iteration order wins. -/
def pyMaxGo (best : String × Nat) : List (String × Nat) → String
  | [] => best.1
  | p :: ps => if best.2 < p.2 then pyMaxGo p ps else pyMaxGo best ps

/-- `max(topic_scores, key=topic_scores.get)` guarded by the emptiness
check of `_extract_topic`. -/
def pyMaxKey : List (String × Nat) → Option String
  | [] => none
  | p :: ps => some (pyMaxGo p ps)

/-- `EntityExtractor._extract_topic` (entity_extractor.py:199-216). -/
def extractTopic (text : String) : Option String :=
  let textLower := pyLower text
  let topicScores := TOPIC_KEYWORDS.filterMap fun p =>
    let score := topicScore textLower p.2
    if 0 < score then some (p.1, score) else none
  pyMaxKey topicScores

/-! ## A small backtracking regex engine

Just enough of Python `re` semantics (leftmost search, greedy repetition
with backtracking, word boundaries, one capturing group, `re.IGNORECASE`)
to embed `EntityExtractor.ACCOUNT_PATTERNS` faithfully. -/

/-- Regex abstract syntax: case-insensitive literals, character classes,
bounded greedy repetition over a class, option, alternation, sequencing,
`\b`, and a capturing group. -/
inductive RE where
  | eps
  | lit (s : String)
  | cls (p : Char → Bool)
  | rep (p : Char → Bool) (lo : Nat) (hi : Option Nat)
  | opt (r : RE)
  | alt (a b : RE)
  | cat (a b : RE)
  | wb
  | grp (r : RE)

/-- Matcher state: the previously consumed character (for `\b`), the
remaining input, and the captures closed so far. -/
structure MState where
  prev : Option Char
  rest : List Char
  caps : List (List Char)

/-- `\w` as used by `\b` (ASCII model of Python word characters). -/
def isWordChar (c : Char) : Bool := c.isAlphanum || c == '_'

/-- Is there a word boundary between the previous character and the next
one? -/
def wordBoundaryAt (prev : Option Char) (rest : List Char) : Bool :=
  let l := match prev with | some c => isWordChar c | none => false
  let r := match rest with | c :: _ => isWordChar c | [] => false
  l != r

/-- Case-insensitive character comparison (`re.IGNORECASE`, ASCII). -/
def ciEqChar (a b : Char) : Bool := a.toLower == b.toLower

/-- Consume a case-insensitive literal. -/
def litConsume : List Char → MState → Option MState
  | [], st => some st
  | p :: ps, st =>
      match st.rest with
      | [] => none
      | c :: cs => if ciEqChar p c then litConsume ps ⟨some c, cs, st.caps⟩ else none

/-- Candidate states after a greedy class repetition, longest first
(backtracking priority order). -/
def repStates (p : Char → Bool) (lo : Nat) (hi : Option Nat) (st : MState) : List MState :=
  let run := st.rest.takeWhile p
  let maxN := match hi with | some h => min h run.length | none => run.length
  ((List.range (maxN + 1)).reverse.filter fun n => lo ≤ n).map fun n =>
    { prev := if n = 0 then st.prev else run.get? (n - 1)
      rest := st.rest.drop n
      caps := st.caps }

/-- All ways a regex can match a prefix of the state's remaining input, in
backtracking priority order (the head is the match Python's engine
returns). The account patterns contain no nested groups, so a group's
capture is simply the span its body consumed. -/
def matchRE : RE → MState → List MState
  | .eps, st => [st]
  | .lit s, st => match litConsume s.data st with | some st2 => [st2] | none => []
  | .cls p, st =>
      match st.rest with
      | c :: cs => if p c then [⟨some c, cs, st.caps⟩] else []
      | [] => []
  | .rep p lo hi, st => repStates p lo hi st
  | .opt r, st => matchRE r st ++ [st]
  | .alt a b, st => matchRE a st ++ matchRE b st
  | .cat a b, st => (matchRE a st).flatMap fun st2 => matchRE b st2
  | .wb, st => if wordBoundaryAt st.prev st.rest then [st] else []
  | .grp r, st => (matchRE r st).map fun st2 =>
      { st2 with caps := st.caps ++ [st.rest.take (st.rest.length - st2.rest.length)] }

/-- `re.search` scan: try each start position left to right; on success
return the captured groups of the highest-priority match. -/
def searchFrom (r : RE) : Option Char → List Char → Option (List String)
  | prev, [] =>
      match matchRE r ⟨prev, [], []⟩ with
      | st :: _ => some (st.caps.map fun g => String.mk g)
      | [] => none
  | prev, c :: rest =>
      match matchRE r ⟨prev, c :: rest, []⟩ with
      | st :: _ => some (st.caps.map fun g => String.mk g)
      | [] => searchFrom r (some c) rest

/-- `pattern.search(text)`, returning the captured groups when a match
exists. -/
def reSearch (r : RE) (text : String) : Option (List String) :=
  searchFrom r none text.data

/-- `[A-Z0-9]` under `re.IGNORECASE`. -/
def aluCi (c : Char) : Bool := c.isAlphanum

/-- `[A-Z0-9-]` under `re.IGNORECASE`. -/
def aluDashCi (c : Char) : Bool := c.isAlphanum || c == '-'

/-- `\s` (ASCII model). -/
def wsCls (c : Char) : Bool := c.isWhitespace

/-- `\d` (ASCII model). -/
def digitCls (c : Char) : Bool := c.isDigit

/-- `\b(ACC-[A-Z0-9]+-[A-Z0-9]+)\b` (entity_extractor.py:85). -/
def accountPattern1 : RE :=
  .cat .wb (.cat (.grp (.cat (.lit "ACC-")
    (.cat (.rep aluCi 1 none) (.cat (.lit "-") (.rep aluCi 1 none))))) .wb)

/-- `\b(ACC-\d{9,12})\b` (entity_extractor.py:86). -/
def accountPattern2 : RE :=
  .cat .wb (.cat (.grp (.cat (.lit "ACC-") (.rep digitCls 9 (some 12)))) .wb)

/-- `\baccount\s*(?:number|#|id)?:?\s*([A-Z0-9-]+)\b` (entity_extractor.py:87). -/
def accountPattern3 : RE :=
  .cat .wb (.cat (.lit "account") (.cat (.rep wsCls 0 none)
    (.cat (.opt (.alt (.lit "number") (.alt (.lit "#") (.lit "id"))))
      (.cat (.opt (.lit ":")) (.cat (.rep wsCls 0 none)
        (.cat (.grp (.rep aluDashCi 1 none)) .wb))))))

/-- `\baccount\s+is\s+([A-Z0-9-]+)\b` (entity_extractor.py:88). -/
def accountPattern4 : RE :=
  .cat .wb (.cat (.lit "account") (.cat (.rep wsCls 1 none)
    (.cat (.lit "is") (.cat (.rep wsCls 1 none)
      (.cat (.grp (.rep aluDashCi 1 none)) .wb)))))

/-- `EntityExtractor.ACCOUNT_PATTERNS` in source order. -/
def ACCOUNT_PATTERNS : List RE :=
  [accountPattern1, accountPattern2, accountPattern3, accountPattern4]

/-- Python `str.upper()` (ASCII letters, the only characters the account
patterns can capture besides digits and dashes). -/
def pyUpper (s : String) : String := String.mk (s.data.map Char.toUpper)

/-- The pattern loop of `EntityExtractor._extract_account_id`: first
pattern that matches wins; its group(1) is uppercased. Every account
pattern has exactly one group, so an empty capture list cannot occur. -/
def tryAccountPatterns : List RE → String → Option String
  | [], _ => none
  | r :: rs, text =>
      match reSearch r text with
      | some (g :: _) => some (pyUpper g)
      | some [] => none
      | none => tryAccountPatterns rs text

/-- `EntityExtractor._extract_account_id` (entity_extractor.py:151-160). -/
def extractAccountId (text : String) : Option String :=
  tryAccountPatterns ACCOUNT_PATTERNS text

/-! ## Sales agent, manager agent and the LangGraph workflow
(`app/agents/sales.py`, `app/agents/manager.py`, `app/graph.py`) -/

/-- `config.QueryIntent` constants. -/
def BILLING_ACCOUNT_SPECIFIC : String := "billing_account_specific"

def BILLING_GENERAL : String := "billing_general"

def SALES_GENERAL : String := "sales_general"

/-- The normalization tail of `SalesAgent.classify_query` (sales.py:125-133)
applied to the completion service's raw label text. -/
def normalizeIntent (raw : String) : String :=
  let intent := pyLower (pyStrip raw)
  if containsSub intent "billing_account_specific" then BILLING_ACCOUNT_SPECIFIC
  else if containsSub intent "billing_general" then BILLING_GENERAL
  else SALES_GENERAL

/-- Decimal rendering with three places, standing in for `:.3f` inside
trace strings (no claim inspects these). -/
def fmtRat3 (q : ℚ) : String :=
  let c : Int := (q * 1000).floor
  let sign := if c < 0 then "-" else ""
  let a := c.natAbs
  sign ++ toString (a / 1000) ++ "."
    ++ (if a % 1000 < 100 then "0" else "") ++ (if a % 1000 < 10 then "0" else "")
    ++ toString (a % 1000)

/-- Python `repr` of a list of strings, as interpolated into the
amounts-verified clarifying question. -/
def pyReprStrList (v : Json) : String :=
  match v with
  | .arr xs => "[" ++ String.intercalate ", "
      (xs.map fun j => match j with | .str s => "'" ++ s ++ "'" | _ => "?") ++ "]"
  | _ => "?"

/-- `ManagerAgent._generate_clarifying_questions` (manager.py:140-179). -/
def generateClarifyingQuestions (validation : ValidationResult) : List String :=
  let questions :=
    if jsonTruthy validation.details then
      let checkType := jGetStr validation.details "check" ""
      if checkType = "citations_present" then
        ["Can you provide your account number or customer ID?",
         "What specific billing period are you asking about?",
         "Can you provide more details about your question?"]
      else if checkType = "confidence_threshold" then
        match jGet validation.details "clarifying_questions" with
        | some (.arr xs) => xs.filterMap fun j => match j with | .str s => some s | _ => none
        | _ => ["Can you be more specific about what you're looking for?",
                "Which billing period or invoice are you asking about?",
                "Can you provide your account details?"]
      else if checkType = "amounts_verified" then
        let unverified := jGetD validation.details "unverified_amounts" (Json.arr [])
        ["I found amounts " ++ pyReprStrList unverified ++ " in the answer but couldn't verify them.",
         "Can you confirm which charges you're asking about?",
         "Which specific invoice or bill are you referring to?"]
      else []
    else []
  if questions ≠ [] then questions
  else ["Can you provide more details about your question?",
        "What specific information are you looking for?"]

/-- `ManagerAgent.validate_response` with its payload builders
(manager.py:53-138): extract the fields from the billing response, run the
guardrails validation and build the approved/rejected result dict. -/
def managerValidateDict (strict : Bool) (threshold : ℚ) (billingResponse : Json) :
    Except String (Bool × Json) := do
  let answer := jGetD billingResponse "answer" (Json.str "")
  let citations := jGetD billingResponse "citations" (Json.arr [])
  let topScore := match jGet billingResponse "top_score" with
                  | some (.num q) => q
                  | _ => 0
  let validation ← managerValidateResponse strict threshold answer citations topScore
  if validation.is_valid then
    pure (true, Json.obj
      [("approved", Json.bool true),
       ("reason", Json.str validation.reason),
       ("answer", jGetD billingResponse "answer" (Json.str "")),
       ("citations", jGetD billingResponse "citations" (Json.arr [])),
       ("confidence", jGetD billingResponse "top_score" (Json.num 0)),
       ("validation_details", validation.details)])
  else
    let questions := generateClarifyingQuestions validation
    let message := "I need a bit more information to answer your question accurately:\n"
      ++ String.intercalate "\n" (questions.map fun q => "• " ++ q)
    pure (false, Json.obj
      [("approved", Json.bool false),
       ("reason", Json.str validation.reason),
       ("clarifying_questions", Json.arr (questions.map Json.str)),
       ("clarifying_message", Json.str message),
       ("validation_details", validation.details),
       ("original_answer", jGetD billingResponse "answer" (Json.str "")),
       ("original_score", jGetD billingResponse "top_score" (Json.num 0))])

/-- `SalesAgent.format_final_response` (sales.py:215-257). -/
def salesFormatFinalResponse (billingResponse : Json) (approved : Bool) : String :=
  if !approved then
    "I apologize, but I couldn't find enough information to answer your question precisely. "
      ++ jGetStr billingResponse "clarifying_message"
           "Could you please provide more details about your account?"
  else
    let answer := jGetStr billingResponse "answer" ""
    let citations := match jGet billingResponse "citations" with | some (.arr xs) => xs | _ => []
    let responseParts := [answer] ++
      (if !citations.isEmpty then
        ["\n\n📋 **Sources:**"] ++ ((citations.enumFrom 1).map fun ic =>
          "  [" ++ toString ic.1 ++ "] " ++ jGetStr ic.2 "doc_id" "Unknown" ++ " - \""
            ++ (jGetStr ic.2 "quote" "").take 50 ++ "...\"")
      else [])
    String.intercalate "\n" responseParts

/-- The shared graph state (`graph.GraphState` TypedDict); the dynamically
typed `billing_response`, `manager_result` and `citations` entries are
carried as `Json`. -/
structure GraphState where
  query : String
  session_id : String
  session_context : String
  intent : String
  billing_response : Json
  manager_result : Json
  final_response : String
  trace : List String
  citations : Json

/-- Oracles for one workflow run: the billing agent's environment, the raw
completion outputs of the router's classify call, of the sales draft, and
of the re-classify call inside the sales draft check, and the context
summary the router reads back from the session store after entity
extraction (`none` models a missing session). -/
structure GraphEnv where
  billing : BillingEnv
  routerClassifyRaw : String
  salesResponseText : String
  salesReclassifyRaw : String
  postExtractContext : Option String

/-- `SalesAgent._check_needs_billing_routing` (sales.py:178-197): a second
classification call, then the sales guardrail on the drafted text. -/
def checkNeedsBillingRouting (env : GraphEnv) (response : String) : Bool :=
  let intent := normalizeIntent env.salesReclassifyRaw
  if intent = BILLING_ACCOUNT_SPECIFIC then true
  else if !(checkSalesAgentResponse response intent).is_valid then true
  else false

/-- `graph.router_node` (graph.py:119-163); the session-store round trip
(entity extraction, context refresh) is supplied by the environment. -/
def routerNode (env : GraphEnv) (s : GraphState) : GraphState :=
  let s :=
    if s.session_id ≠ "" then
      match env.postExtractContext with
      | some ctx => if ctx ≠ "" then { s with session_context := ctx } else s
      | none => s
    else s
  let intent := normalizeIntent env.routerClassifyRaw
  { s with intent := intent
           trace := s.trace ++ ["Router: classified as " ++ intent] }

/-- `graph.sales_node` (graph.py:166-200). When the draft is flagged for
rerouting no final response is set and the state is returned otherwise
unchanged (the source comment reads "continue to billing"). -/
def salesNode (env : GraphEnv) (s : GraphState) : GraphState :=
  if jsonTruthy s.manager_result then
    let managerResult := s.manager_result
    let response := salesFormatFinalResponse managerResult
      (jsonTruthy (jGetD managerResult "approved" (Json.bool false)))
    { s with final_response := response
             trace := s.trace ++ ["SalesAgent: provided response"] }
  else
    let response := env.salesResponseText
    if checkNeedsBillingRouting env response then
      { s with trace := s.trace ++ ["SalesAgent: routing to BillingAgent"] }
    else
      { s with final_response := response
               trace := s.trace ++ ["SalesAgent: provided response"] }

/-- `graph.billing_node` (graph.py:203-235). -/
def billingNode (env : GraphEnv) (s : GraphState) : Except String GraphState :=
  match processQuery env.billing s.query s.session_context with
  | (.ok billingResponse, _) =>
      let score := match jGet billingResponse "top_score" with | some (.num q) => q | _ => 0
      .ok { s with billing_response := billingResponse
                   trace := s.trace ++ ["BillingAgent: retrieved docs, score=" ++ fmtRat3 score] }
  | (.error e, _) => .error e

/-- `graph.manager_node` (graph.py:238-263). -/
def managerNode (strict : Bool) (threshold : ℚ) (s : GraphState) : Except String GraphState := do
  let (approved, result) ← managerValidateDict strict threshold s.billing_response
  let s := { s with
    manager_result := result
    trace := s.trace ++ ["ManagerAgent: " ++ (if approved then "APPROVED" else "REJECTED")
      ++ " - " ++ (jGetStr result "reason" "").take 50] }
  if approved then pure { s with citations := jGetD result "citations" (Json.arr []) }
  else pure s

/-- `graph.format_response_node` (graph.py:266-302). -/
def formatResponseNode (s : GraphState) : GraphState :=
  let managerResult := s.manager_result
  if jsonTruthy (jGetD managerResult "approved" Json.null) then
    let answer := jGetStr managerResult "answer" ""
    let citationsJ := jGetD managerResult "citations" (Json.arr [])
    let citations := match citationsJ with | .arr xs => xs | _ => []
    let responseParts := [answer] ++
      (if !citations.isEmpty then
        ["\n\nSources:"] ++ ((citations.enumFrom 1).map fun ic =>
          "  [" ++ toString ic.1 ++ "] " ++ jGetStr ic.2 "doc_id" "Unknown" ++ ": \""
            ++ (jGetStr ic.2 "quote" "").take 60 ++ "...\"")
      else [])
    { s with final_response := String.intercalate "\n" responseParts
             citations := citationsJ
             trace := s.trace ++ ["Formatted final response"] }
  else
    let message := jGetStr managerResult "clarifying_message"
      "I need more information to answer your question."
    { s with final_response := message
             trace := s.trace ++ ["Formatted final response"] }

/-- `graph.route_after_router` (graph.py:309-322). -/
def routeAfterRouter (s : GraphState) : String :=
  if s.intent = BILLING_ACCOUNT_SPECIFIC then "billing"
  else if s.intent = BILLING_GENERAL then "billing"
  else "sales"

/-- `graph.route_after_sales` (graph.py:325-339): an empty final response
is falsy, and the branch test reads the intent recorded by the router. -/
def routeAfterSales (s : GraphState) : String :=
  if s.final_response ≠ "" then "end"
  else if s.intent = BILLING_ACCOUNT_SPECIFIC ∨ s.intent = BILLING_GENERAL then "billing"
  else "end"

/-- The billing → manager → format chain, whose edges are unconditional. -/
def runBillingChain (env : GraphEnv) (strict : Bool) (threshold : ℚ)
    (s : GraphState) : Except String GraphState := do
  let s ← billingNode env s
  let s ← managerNode strict threshold s
  pure (formatResponseNode s)

/-- `app_workflow.invoke` over the compiled graph of `create_workflow`
(graph.py:351-405): router, then the conditional edges. -/
def invokeWorkflow (env : GraphEnv) (strict : Bool) (threshold : ℚ)
    (s0 : GraphState) : Except String GraphState := do
  let s1 := routerNode env s0
  if routeAfterRouter s1 = "billing" then runBillingChain env strict threshold s1
  else
    let s2 := salesNode env s1
    if routeAfterSales s2 = "billing" then runBillingChain env strict threshold s2
    else pure s2

/-- The record `graph.run_query` returns. -/
structure RunResult where
  final_response : String
  citations : Json
  trace : List String
  approved : Option Json

/-- `graph.run_query` (graph.py:408-487). The session-store side effects
(turn logging, last-query update) do not feed back into the returned
record; `sessionContext` is the summary read from `get_or_create` before
the workflow is invoked. -/
def runQuery (env : GraphEnv) (strict : Bool) (threshold : ℚ)
    (query : String) (sessionId : String) (sessionContext : String) :
    Except String RunResult := do
  let s0 : GraphState :=
    { query := query
      session_id := sessionId
      session_context := if sessionId ≠ "" then sessionContext else ""
      intent := ""
      billing_response := Json.obj []
      manager_result := Json.obj []
      final_response := ""
      trace := []
      citations := Json.arr [] }
  let finalState ← invokeWorkflow env strict threshold s0
  pure { final_response := finalState.final_response
         citations := finalState.citations
         trace := finalState.trace
         approved := jGet finalState.manager_result "approved" }

/-! ## Theorems -/

/-- C2: for every answer text, citation list and top score, the Manager
validator checks its rules in the fixed order citations, then confidence,
then (only in strict mode) amount verification, short-circuiting on the
first failure: an empty citation list yields the citations-absent failure
(details tag `citations_present`) even when the score is below the
threshold; a non-empty list with a sub-threshold score yields the
confidence failure; and with strict mode off a non-empty list with a
passing score is approved with no amount verification. -/
theorem C2_validator_short_circuit (strict : Bool) (threshold topScore : ℚ) (answer : String) :
    (topScore < threshold →
      managerValidateResponse strict threshold (Json.str answer) (Json.arr []) topScore
        = Except.ok
          { is_valid := false
            reason := "No citations provided. Cannot verify answer without evidence."
            details := Json.obj [("check", Json.str "citations_present"),
                                 ("needed", Json.str "At least one citation required")] })
    ∧ (∀ cits : List Json, cits ≠ [] → topScore < threshold →
        managerValidateResponse strict threshold (Json.str answer) (Json.arr cits) topScore
          = Except.ok
            { is_valid := false
              reason := "Confidence too low (" ++ fmtRat2 topScore ++ " < "
                ++ fmtRat2 threshold ++ "). Please provide more specific information."
              details := Json.obj [("check", Json.str "confidence_threshold"),
                                   ("score", Json.num topScore),
                                   ("threshold", Json.num threshold),
                                   ("clarifying_questions",
                                    Json.arr (confidenceClarifyingQuestions.map Json.str))] })
    ∧ (∀ cits : List Json, cits ≠ [] → ¬ topScore < threshold →
        managerValidateResponse false threshold (Json.str answer) (Json.arr cits) topScore
          = Except.ok
            { is_valid := true
              reason := "Response approved. Citations present, confidence sufficient."
              details := Json.obj
                [("citations_count", Json.num cits.length),
                 ("confidence_score", Json.num topScore),
                 ("amounts_in_answer",
                  Json.arr ((pyDedup (extractDollarAmounts answer)).map Json.str))] }) := by
  refine ⟨fun hlow => ?_, fun cits hne hlow => ?_, fun cits hne hhigh => ?_⟩
  · simp [managerValidateResponse, jsonTruthy, hlow, pure, Except.pure]
  · have hcits : jsonTruthy (Json.arr cits) = true := by
      simp [jsonTruthy, hne]
    simp [managerValidateResponse, hcits, hlow, pure, Except.pure]
    rfl
  · have hcits : jsonTruthy (Json.arr cits) = true := by
      simp [jsonTruthy, hne]
    simp [managerValidateResponse, hcits, hhigh, findallJ, pyLen, extractDollarAmounts,
      pure, Except.pure, bind, Except.bind]

/-- Concrete instantiation of the C2 theorem at an empty citation list,
score 0 and threshold 1. -/
theorem C2_validator_short_circuit_witness :
    (0 : ℚ) < 1
    ∧ managerValidateResponse false 1 (Json.str "ans") (Json.arr []) 0
      = Except.ok
        { is_valid := false
          reason := "No citations provided. Cannot verify answer without evidence."
          details := Json.obj [("check", Json.str "citations_present"),
                               ("needed", Json.str "At least one citation required")] } :=
  ⟨zero_lt_one, (C2_validator_short_circuit false 1 0 "ans").1 zero_lt_one⟩

/-- C3: for every query and session context, whenever retrieval returns
zero chunks `process_query` returns the fixed not-found answer — empty
citation list, top score exactly 0, exactly the two default clarifying
questions — and issues no completion request on this path. -/
theorem C3_empty_retrieval_not_found (env : BillingEnv) (query sessionContext : String)
    (hempty : (env.retrieve
      (if sessionContext ≠ "" then sessionContext ++ " " ++ query else query)).1 = []) :
    processQuery env query sessionContext = (Except.ok (createNotFoundResponse query), 0)
    ∧ jGet (createNotFoundResponse query) "citations" = some (Json.arr [])
    ∧ jGet (createNotFoundResponse query) "top_score" = some (Json.num 0)
    ∧ jGet (createNotFoundResponse query) "clarifying_questions"
        = some (Json.arr [Json.str "Can you confirm your account number?",
                          Json.str "Which billing period are you asking about?"]) := by
  refine ⟨?_, rfl, rfl, rfl⟩
  have hempty2 : (env.retrieve
      (if sessionContext = "" then query else sessionContext ++ " " ++ query)).1 = [] := by
    simpa [ite_not] using hempty
  simp [processQuery, hempty2]

/-- Environment whose retrieval oracle returns no chunks. -/
def c3Env : BillingEnv := { retrieve := fun _ => ([], 0), completion := "", loads := fun _ => none }

/-- Concrete instantiation of the C3 theorem. -/
theorem C3_empty_retrieval_not_found_witness :
    (c3Env.retrieve "How much do I owe?").1 = []
    ∧ processQuery c3Env "How much do I owe?" ""
        = (Except.ok (createNotFoundResponse "How much do I owe?"), 0) :=
  ⟨rfl, (C3_empty_retrieval_not_found c3Env "How much do I owe?" "" (by rfl)).1⟩

/-- The (document id, chunk id) pair named by one citation object. -/
def citePair (c : Json) : Option (String × Json) :=
  match jGet c "doc_id", jGet c "chunk_id" with
  | some (Json.str d), some k => some (d, k)
  | _, _ => none

/-- The (document id, chunk id) pairs of a response's citation list. -/
def citationPairs (responseData : Json) : List (String × Json) :=
  match jGet responseData "citations" with
  | some (Json.arr cs) => cs.filterMap citePair
  | _ => []

/-- The (document id, chunk id) pairs of the retrieved chunks. -/
def chunkPairs (chunks : List Chunk) : List (String × Json) :=
  chunks.map fun c => (c.doc_id, c.chunk_id)

/-- A single retrieved chunk used by the C4 failing run. -/
def c4Chunk : Chunk := { doc_id := "DOC_1", chunk_id := Json.num 0, text := "alpha beta gamma", score := 1 }

/-- A completion output whose parsed citations contain a malformed
(non-dict) entry. -/
def c4CompletionText : String := "\x7b\"answer\": \"a\", \"citations\": [5], \"top_score\": 1\x7d"

/-- `json.loads` of `c4CompletionText`. -/
def c4Parsed : Json :=
  Json.obj [("answer", Json.str "a"),
            ("citations", Json.arr [Json.num 5]),
            ("top_score", Json.num 1)]

/-- Billing environment for the C4 failing run. -/
def c4Env : BillingEnv :=
  { retrieve := fun _ => ([c4Chunk], 1)
    completion := c4CompletionText
    loads := fun s => if s = c4CompletionText then some c4Parsed else none }

/-- C4: failing run for the fallback claim. The completion output parses to
a record whose citation list holds a malformed non-dict entry; instead of
falling back, the structure validation evaluates `"doc_id" not in 5`,
which raises a TypeError outside the try/except, and the error propagates
out of `process_query` to the caller. -/
theorem C4_malformed_citation_raises :
    parseJsonResponse c4Env.loads c4Env.completion = some c4Parsed
    ∧ processQuery c4Env "How much do I owe?" ""
        = (Except.error "TypeError: argument of type is not iterable", 1) :=
  ⟨rfl, rfl⟩

/-- A single retrieved chunk used by the C1 counterexample run. -/
def c1Chunk : Chunk := { doc_id := "DOC_1", chunk_id := Json.num 0, text := "alpha beta gamma", score := 1 }

/-- A completion output whose citations pass the structure check but name a
document/chunk pair that was never retrieved. -/
def c1CompletionText : String :=
  "\x7b\"answer\": \"You owe $99.\", \"citations\": [\x7b\"doc_id\": \"DOC_9\", \"chunk_id\": 7, \"quote\": \"fabricated\"\x7d], \"top_score\": 1\x7d"

/-- `json.loads` of `c1CompletionText`. -/
def c1Parsed : Json :=
  Json.obj [("answer", Json.str "You owe $99."),
            ("citations", Json.arr [Json.obj [("doc_id", Json.str "DOC_9"),
                                              ("chunk_id", Json.num 7),
                                              ("quote", Json.str "fabricated")]]),
            ("top_score", Json.num 1)]

/-- Billing environment for the C1 counterexample run. -/
def c1Env : BillingEnv :=
  { retrieve := fun _ => ([c1Chunk], 1)
    completion := c1CompletionText
    loads := fun s => if s = c1CompletionText then some c1Parsed else none }

/-- C1 fails as stated: on this run the single retrieved chunk is
(DOC_1, 0), yet the returned answer's citation list names (DOC_9, 7),
a pair not present among the retrieved chunks — the structure guardrail
checks only field presence, never membership. -/
theorem C1_citation_subset_counterexample :
    (processQuery c1Env "How much do I owe?" "").1
      = Except.ok (jsonSetKey c1Parsed "top_score" (Json.num 1))
    ∧ citationPairs (jsonSetKey c1Parsed "top_score" (Json.num 1)) = [("DOC_9", Json.num 7)]
    ∧ chunkPairs [c1Chunk] = [("DOC_1", Json.num 0)]
    ∧ ("DOC_9", Json.num 7) ∉ chunkPairs [c1Chunk] := by
  refine ⟨rfl, rfl, rfl, ?_⟩
  intro h
  simp [chunkPairs, c1Chunk] at h

/-- C1 amended: citations built on the not-found path or by the fallback
synthesis always name (doc id, chunk id) pairs of retrieved chunks; but a
parsed completion output that passes the structure validation is returned
with its citation list unchanged and unchecked, so for such outputs the
subset property holds only if the completion service itself respected it. -/
theorem C1_citation_subset_amended :
    (∀ (chunks : List Chunk) (respText : String),
      ∀ p ∈ citationPairs (createFallbackResponse respText chunks), p ∈ chunkPairs chunks)
    ∧ (∀ query : String, citationPairs (createNotFoundResponse query) = [])
    ∧ (∀ (loads : String → Option Json) (respText : String) (chunks : List Chunk)
        (rd : Json) (v : ValidationResult),
        parseJsonResponse loads respText = some rd →
        validateBillingResponseStructure rd = Except.ok v →
        v.is_valid = true →
        generateResponseData loads respText chunks = Except.ok rd) := by
  refine ⟨?_, fun _ => rfl, ?_⟩
  · intro chunks respText p hp
    have hcp : citationPairs (createFallbackResponse respText chunks)
        = ((createCitationsFromChunks chunks respText).take 3).filterMap citePair := by
      simp [citationPairs, createFallbackResponse, jGet, List.find?]
    rw [hcp] at hp
    rcases List.mem_filterMap.mp hp with ⟨c, hc, hpair⟩
    have hc2 : c ∈ createCitationsFromChunks chunks respText := List.mem_of_mem_take hc
    rcases List.mem_map.mp hc2 with ⟨chunk, hchunk, hmk⟩
    have : citePair c = some (chunk.doc_id, chunk.chunk_id) := by
      rw [← hmk]; rfl
    rw [this] at hpair
    cases hpair
    exact List.mem_map.mpr ⟨chunk, hchunk, rfl⟩
  · intro loads respText chunks rd v hparse hval hvalid
    simp [generateResponseData, hparse, hval, hvalid, bind, Except.bind, pure, Except.pure]

/-- Chunk used by the C1 amended witness. -/
def c1wChunk : Chunk := { doc_id := "DOC_A", chunk_id := Json.num 2, text := "hello world", score := 1 }

/-- Structurally valid parsed output used by the C1 amended witness. -/
def c1wParsed : Json :=
  Json.obj [("answer", Json.str "x"),
            ("citations", Json.arr [Json.obj [("doc_id", Json.str "DOC_A"),
                                              ("chunk_id", Json.num 2),
                                              ("quote", Json.str "q")]]),
            ("top_score", Json.num 1)]

/-- Concrete instantiation of the C1 amended theorem: a fallback citation
pair really is among the retrieved pairs, and a structurally valid parsed
output passes through unchanged. -/
theorem C1_citation_subset_amended_witness :
    ("DOC_A", Json.num 2) ∈ chunkPairs [c1wChunk]
    ∧ generateResponseData (fun _ => some c1wParsed) "raw" [c1wChunk] = Except.ok c1wParsed :=
  ⟨C1_citation_subset_amended.1 [c1wChunk] "raw" ("DOC_A", Json.num 2)
      (by simp [citationPairs, createFallbackResponse, createCitationsFromChunks, c1wChunk,
                jGet, List.find?, citePair]),
   C1_citation_subset_amended.2.2 (fun _ => some c1wParsed) "raw" [c1wChunk] c1wParsed
      { is_valid := true, reason := "Response structure is valid." } rfl rfl rfl⟩

/-- Field equation for `extractAndUpdateSession` on `account_id`. -/
theorem eaus_account_id (e : ExtractedEntities) (s : SessionEntities) :
    (extractAndUpdateSession e s).account_id
      = if optTruthy e.account_id then some (e.account_id.getD "") else s.account_id := by
  rcases h1 : optTruthy e.account_id <;> rcases h2 : optTruthy e.customer_name <;>
    rcases h3 : optTruthy e.billing_period <;> rcases h4 : optTruthy e.topic <;>
    simp [extractAndUpdateSession, storeUpdate, applyField, allowedFields, h1, h2, h3, h4]

/-- Field equation for `extractAndUpdateSession` on `customer_name`. -/
theorem eaus_customer_name (e : ExtractedEntities) (s : SessionEntities) :
    (extractAndUpdateSession e s).customer_name
      = if optTruthy e.customer_name then some (e.customer_name.getD "") else s.customer_name := by
  rcases h1 : optTruthy e.account_id <;> rcases h2 : optTruthy e.customer_name <;>
    rcases h3 : optTruthy e.billing_period <;> rcases h4 : optTruthy e.topic <;>
    simp [extractAndUpdateSession, storeUpdate, applyField, allowedFields, h1, h2, h3, h4]

/-- Field equation for `extractAndUpdateSession` on `billing_period`. -/
theorem eaus_billing_period (e : ExtractedEntities) (s : SessionEntities) :
    (extractAndUpdateSession e s).billing_period
      = if optTruthy e.billing_period then some (e.billing_period.getD "") else s.billing_period := by
  rcases h1 : optTruthy e.account_id <;> rcases h2 : optTruthy e.customer_name <;>
    rcases h3 : optTruthy e.billing_period <;> rcases h4 : optTruthy e.topic <;>
    simp [extractAndUpdateSession, storeUpdate, applyField, allowedFields, h1, h2, h3, h4]

/-- Field equation for `extractAndUpdateSession` on `current_topic`. -/
theorem eaus_current_topic (e : ExtractedEntities) (s : SessionEntities) :
    (extractAndUpdateSession e s).current_topic
      = if optTruthy e.topic then some (e.topic.getD "") else s.current_topic := by
  rcases h1 : optTruthy e.account_id <;> rcases h2 : optTruthy e.customer_name <;>
    rcases h3 : optTruthy e.billing_period <;> rcases h4 : optTruthy e.topic <;>
    simp [extractAndUpdateSession, storeUpdate, applyField, allowedFields, h1, h2, h3, h4]

/-- C5: `extract_and_update_session` is sticky per entity field — when the
extraction yields no truthy value for a field (absent or empty) the stored
value is preserved, and a non-empty extracted value overwrites exactly
that field. -/
theorem C5_entity_fields_sticky (e : ExtractedEntities) (s : SessionEntities) :
    (optTruthy e.account_id = false →
      (extractAndUpdateSession e s).account_id = s.account_id)
    ∧ (∀ v, e.account_id = some v → v ≠ "" →
        (extractAndUpdateSession e s).account_id = some v)
    ∧ (optTruthy e.customer_name = false →
        (extractAndUpdateSession e s).customer_name = s.customer_name)
    ∧ (∀ v, e.customer_name = some v → v ≠ "" →
        (extractAndUpdateSession e s).customer_name = some v)
    ∧ (optTruthy e.billing_period = false →
        (extractAndUpdateSession e s).billing_period = s.billing_period)
    ∧ (∀ v, e.billing_period = some v → v ≠ "" →
        (extractAndUpdateSession e s).billing_period = some v)
    ∧ (optTruthy e.topic = false →
        (extractAndUpdateSession e s).current_topic = s.current_topic)
    ∧ (∀ v, e.topic = some v → v ≠ "" →
        (extractAndUpdateSession e s).current_topic = some v) := by
  refine ⟨fun h => ?_, fun v hv hne => ?_, fun h => ?_, fun v hv hne => ?_,
          fun h => ?_, fun v hv hne => ?_, fun h => ?_, fun v hv hne => ?_⟩
  · rw [eaus_account_id, h]; rfl
  · have ht : optTruthy e.account_id = true := by simp [optTruthy, hv, hne]
    rw [eaus_account_id, ht, hv]; simp
  · rw [eaus_customer_name, h]; rfl
  · have ht : optTruthy e.customer_name = true := by simp [optTruthy, hv, hne]
    rw [eaus_customer_name, ht, hv]; simp
  · rw [eaus_billing_period, h]; rfl
  · have ht : optTruthy e.billing_period = true := by simp [optTruthy, hv, hne]
    rw [eaus_billing_period, ht, hv]; simp
  · rw [eaus_current_topic, h]; rfl
  · have ht : optTruthy e.topic = true := by simp [optTruthy, hv, hne]
    rw [eaus_current_topic, ht, hv]; simp

/-- Extraction result used by the C5 witness: a new account id, an
empty-string billing period, no name, a topic. -/
def c5Entities : ExtractedEntities :=
  { account_id := some "ACC-NEW-1", billing_period := some "", topic := some "billing" }

/-- Session used by the C5 witness. -/
def c5Session : SessionEntities :=
  { account_id := some "ACC-OLD-9", customer_name := some "Dana", billing_period := some "January 2026" }

/-- Concrete instantiation of the C5 theorem: silence keeps the stored
name, an empty extraction keeps the stored billing period, and a non-empty
extraction overwrites the account id. -/
theorem C5_entity_fields_sticky_witness :
    (extractAndUpdateSession c5Entities c5Session).customer_name = c5Session.customer_name
    ∧ (extractAndUpdateSession c5Entities c5Session).billing_period = c5Session.billing_period
    ∧ (extractAndUpdateSession c5Entities c5Session).account_id = some "ACC-NEW-1" :=
  ⟨(C5_entity_fields_sticky c5Entities c5Session).2.2.1 rfl,
   (C5_entity_fields_sticky c5Entities c5Session).2.2.2.2.1 rfl,
   (C5_entity_fields_sticky c5Entities c5Session).2.1 "ACC-NEW-1" rfl (by decide)⟩

/-- `addTurn` in closed form on histories within the bound. -/
theorem addTurn_eq_drop (h : List Turn) (t : Turn) (hh : h.length ≤ 10) :
    addTurn h t = (h ++ [t]).drop ((h.length + 1) - 10) := by
  unfold addTurn maxHistory
  simp only [List.length_append, List.length_cons, List.length_nil]
  split
  · rfl
  · rename_i hgt
    have : h.length + 1 - 10 = 0 := by omega
    rw [this, List.drop_zero]

/-- C6: starting from a fresh session, any sequence of `appendTurn` calls
leaves at most 10 turns in the history, and the retained turns are exactly
the most recently inserted ones in insertion order (FIFO eviction). -/
theorem C6_history_bounded_fifo (ts : List Turn) :
    (ts.foldl addTurn []).length ≤ 10
    ∧ ts.foldl addTurn [] = ts.drop (ts.length - 10) := by
  have main : ts.foldl addTurn [] = ts.drop (ts.length - 10) := by
    induction ts using List.reverseRecOn with
    | nil => rfl
    | append_singleton l a ih =>
        rw [List.foldl_append, List.foldl_cons, List.foldl_nil, ih]
        have hdl : (l.drop (l.length - 10)).length = l.length - (l.length - 10) :=
          List.length_drop _ _
        have hlen : (l.drop (l.length - 10)).length ≤ 10 := by rw [hdl]; omega
        rw [addTurn_eq_drop _ _ hlen, hdl]
        rw [List.drop_append_of_le_length (by rw [hdl]; omega)]
        rw [List.drop_drop]
        have hB : (l ++ [a]).length - 10 ≤ l.length := by
          simp only [List.length_append, List.length_cons, List.length_nil]; omega
        rw [List.drop_append_of_le_length hB]
        have hcount : l.length - 10 + (l.length - (l.length - 10) + 1 - 10)
            = (l ++ [a]).length - 10 := by
          have hla : (l ++ [a]).length = l.length + 1 := by simp
          omega
        rw [hcount]
  refine ⟨?_, main⟩
  rw [main, List.length_drop]
  omega

/-- The four context segments in the spec's order with absent (falsy)
fields omitted — the spec-side reading of the summary line, to be compared
with `getContextSummary`. -/
def contextSegments (s : SessionEntities) : List String :=
  List.filterMap id
    [if optTruthy s.account_id then some ("Account: " ++ s.account_id.getD "") else none,
     if optTruthy s.customer_name then some ("Customer: " ++ s.customer_name.getD "") else none,
     if optTruthy s.billing_period then some ("Discussing: " ++ s.billing_period.getD "") else none,
     if optTruthy s.current_topic then some ("Topic: " ++ s.current_topic.getD "") else none]

/-- Session with only an account id, used by the C9 counterexample. -/
def c9Session : SessionEntities := { account_id := some "ACC-DEMO-001" }

/-- C9 fails as stated: the summary is not exactly the
`Account: ... | ...` line — the code prepends `"Session Context: "`. -/
theorem C9_context_summary_counterexample :
    getContextSummary c9Session = "Session Context: Account: ACC-DEMO-001"
    ∧ getContextSummary c9Session ≠ "Account: ACC-DEMO-001" := by
  refine ⟨rfl, ?_⟩
  decide

/-- C9 amended: the summary is `"Session Context: "` followed by the
present segments (in the order account, customer, billing period, topic)
joined with `" | "`, and the empty string when no entity field is set. -/
theorem C9_context_summary_amended (s : SessionEntities) :
    getContextSummary s
      = if contextSegments s = [] then ""
        else "Session Context: " ++ String.intercalate " | " (contextSegments s) := by
  rcases h1 : optTruthy s.account_id <;> rcases h2 : optTruthy s.customer_name <;>
    rcases h3 : optTruthy s.billing_period <;> rcases h4 : optTruthy s.current_topic <;>
    simp [getContextSummary, contextSegments, h1, h2, h3, h4]

/-- Maximum of the recorded scores (0 for the empty list). -/
def maxScoreOf (scores : List (String × Nat)) : Nat :=
  (scores.map Prod.snd).foldr max 0

/-- The spec-side reading of topic detection: score every table entry by
keyword overlap, return nothing when no keyword matches, otherwise the
first table entry attaining the maximal score. -/
def specTopicChoice (text : String) : Option String :=
  let textLower := pyLower text
  let scored := TOPIC_KEYWORDS.map fun p => (p.1, topicScore textLower p.2)
  if maxScoreOf scored = 0 then none
  else (scored.find? fun p => decide (p.2 = maxScoreOf scored)).map Prod.fst

theorem maxScoreOf_cons (a : String × Nat) (l : List (String × Nat)) :
    maxScoreOf (a :: l) = max a.2 (maxScoreOf l) := by
  simp [maxScoreOf]

theorem le_maxScoreOf (l : List (String × Nat)) : ∀ x ∈ l, x.2 ≤ maxScoreOf l := by
  induction l with
  | nil => intro x hx; cases hx
  | cons a l ih =>
      intro x hx
      rw [maxScoreOf_cons]
      rcases List.mem_cons.mp hx with rfl | hx
      · exact Nat.le_max_left _ _
      · exact Nat.le_trans (ih x hx) (Nat.le_max_right _ _)

theorem find?_congr_mem {α : Type} (l : List α) (p q : α → Bool)
    (h : ∀ x ∈ l, p x = q x) : l.find? p = l.find? q := by
  induction l with
  | nil => rfl
  | cons a l ih =>
      have ha := h a (List.mem_cons_self a l)
      rw [List.find?_cons, List.find?_cons, ha]
      split
      · rfl
      · exact ih fun x hx => h x (List.mem_cons_of_mem a hx)

theorem pyMaxGo_spec (ps : List (String × Nat)) : ∀ best : String × Nat,
    some (pyMaxGo best ps)
      = ((best :: ps).find? fun p => decide (maxScoreOf (best :: ps) ≤ p.2)).map Prod.fst := by
  induction ps with
  | nil =>
      intro best
      simp [pyMaxGo, maxScoreOf, List.find?]
  | cons x xs ih =>
      intro best
      by_cases hx : best.2 < x.2
      · rw [pyMaxGo, if_pos hx, ih x]
        have hM : maxScoreOf (best :: x :: xs) = maxScoreOf (x :: xs) := by
          rw [maxScoreOf_cons]
          have : best.2 ≤ maxScoreOf (x :: xs) :=
            Nat.le_trans (Nat.le_of_lt hx) (le_maxScoreOf _ x (List.mem_cons_self x xs))
          omega
        simp only [hM]
        have hb : (decide (maxScoreOf (x :: xs) ≤ best.2)) = false := by
          have hxle : x.2 ≤ maxScoreOf (x :: xs) := le_maxScoreOf _ x (List.mem_cons_self x xs)
          simp only [decide_eq_false_iff_not]
          omega
        conv_rhs => rw [List.find?_cons, hb]
      · rw [pyMaxGo, if_neg hx, ih best]
        have hxb : x.2 ≤ best.2 := Nat.le_of_not_lt hx
        have hM : maxScoreOf (best :: x :: xs) = maxScoreOf (best :: xs) := by
          rw [maxScoreOf_cons, maxScoreOf_cons, maxScoreOf_cons]
          omega
        simp only [hM]
        by_cases hc : decide (maxScoreOf (best :: xs) ≤ best.2) = true
        · conv_lhs => rw [List.find?_cons, hc]
          conv_rhs => rw [List.find?_cons, hc]
        · rw [Bool.not_eq_true] at hc
          have hcx : (decide (maxScoreOf (best :: xs) ≤ x.2)) = false := by
            simp only [decide_eq_false_iff_not]
            simp only [decide_eq_false_iff_not] at hc
            omega
          conv_lhs => rw [List.find?_cons, hc]
          conv_rhs => rw [List.find?_cons, hc, List.find?_cons, hcx]

theorem filterMap_pos_cons_pos (a : String × Nat) (l : List (String × Nat)) (ha : 0 < a.2) :
    (a :: l).filterMap (fun p => if 0 < p.2 then some p else none)
      = a :: l.filterMap (fun p => if 0 < p.2 then some p else none) := by
  simp [ha]

theorem filterMap_pos_cons_zero (a : String × Nat) (l : List (String × Nat)) (ha : ¬ 0 < a.2) :
    (a :: l).filterMap (fun p => if 0 < p.2 then some p else none)
      = l.filterMap (fun p => if 0 < p.2 then some p else none) := by
  simp [ha]

theorem maxScoreOf_filterMap_pos (l : List (String × Nat)) :
    maxScoreOf (l.filterMap fun p => if 0 < p.2 then some p else none) = maxScoreOf l := by
  induction l with
  | nil => rfl
  | cons a l ih =>
      rw [maxScoreOf_cons]
      by_cases ha : 0 < a.2
      · rw [filterMap_pos_cons_pos a l ha, maxScoreOf_cons, ih]
      · rw [filterMap_pos_cons_zero a l ha, ih]
        omega

theorem find?_filterMap_pos (l : List (String × Nat)) (M : Nat) (hM : 0 < M) :
    ((l.filterMap fun p => if 0 < p.2 then some p else none).find?
        fun p => decide (M ≤ p.2))
      = l.find? fun p => decide (M ≤ p.2) := by
  induction l with
  | nil => rfl
  | cons a l ih =>
      by_cases ha : 0 < a.2
      · rw [filterMap_pos_cons_pos a l ha]
        rw [List.find?_cons, List.find?_cons]
        cases hpa : decide (M ≤ a.2)
        · simpa using ih
        · rfl
      · rw [filterMap_pos_cons_zero a l ha]
        rw [ih, List.find?_cons]
        have : (decide (M ≤ a.2)) = false := by
          simp only [decide_eq_false_iff_not]
          omega
        rw [this]

theorem pyMaxKey_filter_spec (l : List (String × Nat)) :
    pyMaxKey (l.filterMap fun p => if 0 < p.2 then some p else none)
      = if maxScoreOf l = 0 then none
        else (l.find? fun p => decide (maxScoreOf l ≤ p.2)).map Prod.fst := by
  induction l with
  | nil => rfl
  | cons a l ih =>
      rw [maxScoreOf_cons]
      by_cases ha : 0 < a.2
      · rw [filterMap_pos_cons_pos a l ha]
        have hMpos : ¬ max a.2 (maxScoreOf l) = 0 := by omega
        rw [if_neg hMpos]
        have hgo := pyMaxGo_spec (l.filterMap fun p => if 0 < p.2 then some p else none) a
        have hpk : pyMaxKey (a :: (l.filterMap fun p => if 0 < p.2 then some p else none))
            = some (pyMaxGo a (l.filterMap fun p => if 0 < p.2 then some p else none)) := rfl
        rw [hpk, hgo]
        have hmax : maxScoreOf (a :: (l.filterMap fun p => if 0 < p.2 then some p else none))
            = max a.2 (maxScoreOf l) := by
          rw [maxScoreOf_cons, maxScoreOf_filterMap_pos]
        simp only [hmax]
        by_cases hc : decide (max a.2 (maxScoreOf l) ≤ a.2) = true
        · conv_lhs => rw [List.find?_cons, hc]
          conv_rhs => rw [List.find?_cons, hc]
        · rw [Bool.not_eq_true] at hc
          conv_lhs => rw [List.find?_cons, hc]
          conv_rhs => rw [List.find?_cons, hc]
          rw [find?_filterMap_pos _ _ (by omega)]
      · rw [filterMap_pos_cons_zero a l ha, ih]
        have ha0 : a.2 = 0 := by omega
        have hmax : max a.2 (maxScoreOf l) = maxScoreOf l := by omega
        rw [hmax]
        by_cases h0 : maxScoreOf l = 0
        · rw [if_pos h0, if_pos h0]
        · rw [if_neg h0, if_neg h0]
          conv_rhs => rw [List.find?_cons]
          have hfa : (decide (maxScoreOf l ≤ a.2)) = false := by
            simp only [decide_eq_false_iff_not]
            omega
          rw [hfa]

/-- C8: for every input text, topic detection returns exactly what the
spec describes — the topic with the greatest keyword-overlap count, ties
broken by the first table entry in definition order, and nothing when no
keyword matches. -/
theorem C8_topic_detection (text : String) : extractTopic text = specTopicChoice text := by
  have hfm : extractTopic text
      = pyMaxKey ((TOPIC_KEYWORDS.map fun p => (p.1, topicScore (pyLower text) p.2)).filterMap
          fun q => if 0 < q.2 then some q else none) := by
    rw [List.filterMap_map]
    rfl
  have hspec : specTopicChoice text
      = (if maxScoreOf (TOPIC_KEYWORDS.map fun p => (p.1, topicScore (pyLower text) p.2)) = 0
         then none
         else ((TOPIC_KEYWORDS.map fun p => (p.1, topicScore (pyLower text) p.2)).find?
            fun p => decide (p.2 = maxScoreOf
              (TOPIC_KEYWORDS.map fun q => (q.1, topicScore (pyLower text) q.2)))).map Prod.fst) :=
    rfl
  rw [hfm, hspec, pyMaxKey_filter_spec]
  by_cases h0 : maxScoreOf (TOPIC_KEYWORDS.map fun p => (p.1, topicScore (pyLower text) p.2)) = 0
  · rw [if_pos h0, if_pos h0]
  · rw [if_neg h0, if_neg h0]
    congr 1
    apply find?_congr_mem
    intro x hx
    have hle := le_maxScoreOf _ x hx
    by_cases hx2 : x.2 = maxScoreOf (TOPIC_KEYWORDS.map fun p => (p.1, topicScore (pyLower text) p.2))
    · simp [hx2]
    · have : ¬ (maxScoreOf (TOPIC_KEYWORDS.map fun p => (p.1, topicScore (pyLower text) p.2)) ≤ x.2) := by
        omega
      simp [this, hx2]

/-- `Char.ofNat` on a valid codepoint. -/
theorem toNat_ofNat_valid {n : Nat} (h : n.isValidChar) : (Char.ofNat n).toNat = n := by
  unfold Char.ofNat
  rw [dif_pos h]
  rfl

/-- `Char.toUpper` is idempotent. -/
theorem charToUpper_idem (c : Char) : (Char.toUpper c).toUpper = Char.toUpper c := by
  unfold Char.toUpper
  by_cases h : c.toNat ≥ 97 ∧ c.toNat ≤ 122
  · rw [if_pos h]
    have hvalid : (c.toNat - 32).isValidChar := Or.inl (by omega)
    have hv : (Char.ofNat (c.toNat - 32)).toNat = c.toNat - 32 := toNat_ofNat_valid hvalid
    rw [if_neg (by rw [hv]; omega)]
  · rw [if_neg h, if_neg h]

/-- `pyUpper` is idempotent. -/
theorem pyUpper_idem (s : String) : pyUpper (pyUpper s) = pyUpper s := by
  unfold pyUpper
  simp only [List.map_map]
  have hfun : Char.toUpper ∘ Char.toUpper = Char.toUpper := funext charToUpper_idem
  rw [hfun]

/-- C10: any account id the extractor returns is fully uppercased — each
pattern branch passes the captured group through `.upper()` — and the
matching itself is case-insensitive: the lowercase input
`my account is acc-demo-001` matches the first account pattern and yields
`ACC-DEMO-001`. -/
theorem C10_account_id_uppercased :
    (∀ text s, extractAccountId text = some s → pyUpper s = s)
    ∧ extractAccountId "my account is acc-demo-001" = some "ACC-DEMO-001" := by
  constructor
  · have hgen : ∀ (rs : List RE) (text s : String),
        tryAccountPatterns rs text = some s → pyUpper s = s := by
      intro rs
      induction rs with
      | nil => intro text s h; cases h
      | cons r rs ih =>
          intro text s h
          rw [tryAccountPatterns] at h
          cases hm : reSearch r text with
          | none => rw [hm] at h; exact ih text s h
          | some gs =>
              cases gs with
              | nil => rw [hm] at h; cases h
              | cons g gs2 =>
                  rw [hm] at h
                  cases h
                  exact pyUpper_idem g
    exact fun text s h => hgen ACCOUNT_PATTERNS text s h
  · rfl

/-- Concrete instantiation of the C10 theorem at the lowercase demo
account id. -/
theorem C10_account_id_uppercased_witness :
    extractAccountId "my account is acc-demo-001" = some "ACC-DEMO-001"
    ∧ pyUpper "ACC-DEMO-001" = "ACC-DEMO-001" :=
  ⟨C10_account_id_uppercased.2,
   C10_account_id_uppercased.1 "my account is acc-demo-001" "ACC-DEMO-001"
     C10_account_id_uppercased.2⟩

/-- Workflow environment for the C7 failing run: the router's classify
call answers sales_general, while the re-classification inside the sales
draft check answers billing_account_specific (the completion service is a
black box, so two calls may disagree). -/
def c7Env : GraphEnv :=
  { billing := { retrieve := fun _ => ([], 0), completion := "", loads := fun _ => none }
    routerClassifyRaw := "sales_general"
    salesResponseText := "We offer several plans."
    salesReclassifyRaw := "billing_account_specific"
    postExtractContext := none }

/-- C7: failing run. The first classification (sales_general) routes the
flow into Sales; the sales node flags its draft for rerouting and so sets
no final response; `route_after_sales` consults the stale router intent
and terminates. `run_query` then returns the ambiguous partial state the
claim rules out — empty final response with approved unknown — and no
failure is raised. -/
theorem C7_ambiguous_state_run :
    runQuery c7Env false 1 "What plans do you offer?" "" ""
      = Except.ok
        { final_response := ""
          citations := Json.arr []
          trace := ["Router: classified as sales_general", "SalesAgent: routing to BillingAgent"]
          approved := none } := by
  rfl

end Telecom
